import Mathlib

/-
Verification of the paginated-response traversal core of the
backend-integration-framework repository (src/src/api/cloud_api.py).

The embedding models decoded JSON values as the inductive type `JVal`
(the transport boundary is taken at the decoded level: a response body is
represented by its JSON parse result, since every property below concerns
well-formed JSON envelopes, never the text-level decoder).  Python dict
lookup, truthiness and numeric comparison are embedded explicitly, and every
operation that can raise returns through `Except PyErr`.  The mutable
`PaginatedResponse` object is embedded as explicit state passing: each
navigation method maps the prior cursor state and a transport oracle to an
outcome carrying the raised-or-returned result, the state of the object after
the call (Python mutation persists even when an exception propagates, which
the embedding keeps), and the list of URLs fetched through `api_get`.
-/

/-- Decoded JSON values, with integers for JSON numbers (the pagination
fields in scope are integral). -/
inductive JVal where
  | null
  | bool (b : Bool)
  | num (n : Int)
  | str (s : String)
  | arr (elems : List JVal)
  | obj (fields : List (String × JVal))
deriving Repr

/-- Python truthiness (`bool(x)`) on a decoded JSON value: None, False, 0,
empty string, empty list and empty dict are falsy. -/
def pyTruthy : JVal → Bool
  | .null => false
  | .bool b => b
  | .num n => n != 0
  | .str s => s != ""
  | .arr [] => false
  | .arr (_ :: _) => true
  | .obj [] => false
  | .obj (_ :: _) => true

/-- `dict.get(k)`: the value at the first matching key, or `none` (Python
`None`) when the key is absent. -/
def dictGet (fields : List (String × JVal)) (k : String) : Option JVal :=
  (fields.find? (fun kv => kv.1 == k)).map (fun kv => kv.2)

/-- Truthiness of a `dict.get` result: Python `None` (key absent) is falsy. -/
def pyTruthyOpt : Option JVal → Bool
  | none => false
  | some v => pyTruthy v

/-- The exceptions the embedded code can raise.  `valueErrorNav` models the
`ValueError` raised on a navigation transport failure, whose f-string message
interpolates a direction phrase, the status code and the body; the
constructor keeps those three components structurally. -/
inductive PyErr where
  | keyError (k : String)
  | valueError (msg : String)
  | valueErrorNav (what : String) (code : Int) (body : JVal)
  | attributeError
  | typeError
  | indexError (msg : String)
deriving Repr

/-- A JSON value viewed as a Python number when it is one (`bool` is an
`int` subclass in Python: True is 1, False is 0). -/
def pyNum? : JVal → Option Int
  | .num n => some n
  | .bool b => some (if b then 1 else 0)
  | _ => none

/-- Python `a < b` on decoded JSON scalars: numeric comparison between
number-likes, lexicographic between strings, `TypeError` otherwise. -/
def pyLt (a b : JVal) : Except PyErr Bool :=
  match pyNum? a, pyNum? b with
  | some x, some y => .ok (decide (x < y))
  | _, _ =>
    match a, b with
    | .str x, .str y => .ok (decide (x < y))
    | _, _ => .error .typeError

/-- Python `a <= b`, same domain as `pyLt`. -/
def pyLe (a b : JVal) : Except PyErr Bool :=
  match pyNum? a, pyNum? b with
  | some x, some y => .ok (decide (x ≤ y))
  | _, _ =>
    match a, b with
    | .str x, .str y => .ok (decide (x ≤ y))
    | _, _ => .error .typeError

/-- Python `a >= b`, same domain as `pyLt`. -/
def pyGe (a b : JVal) : Except PyErr Bool :=
  match pyNum? a, pyNum? b with
  | some x, some y => .ok (decide (x ≥ y))
  | _, _ =>
    match a, b with
    | .str x, .str y => .ok (decide (y ≤ x))
    | _, _ => .error .typeError

/-- `pr[k]` on a decoded JSON value: dict lookup raising `KeyError` on a
missing key, `TypeError` when the value is not a dict (string subscripts on
None, numbers or lists raise `TypeError` in Python). -/
def pyIndex (pr : JVal) (k : String) : Except PyErr JVal :=
  match pr with
  | .obj fields =>
    match dictGet fields k with
    | some v => .ok v
    | none => .error (.keyError k)
  | _ => .error .typeError

/-- `StdResponse`: the flat result, wrapping the envelope's `data` field. -/
structure StdResponse where
  data : JVal
deriving Repr

/-- `StdResponse.__init__(pr)`: rejects a falsy envelope with
`ValueError("Response cannot be None")`, then reads `pr["data"]`. -/
def StdResponse.ofVal (pr : JVal) : Except PyErr StdResponse :=
  if !pyTruthy pr then .error (.valueError "Response cannot be None")
  else match pyIndex pr "data" with
  | .error e => .error e
  | .ok d => .ok { data := d }

/-- The `PaginatedResponse` cursor state: payload, the three page-position
fields and the four stored URLs.  Field names follow the Python attributes
(`_page`, `_first_page`, `_last_page`, `_prev_page_url`, `_next_page_url`,
`_first_url`, `_next_url`) without the underscore prefix. -/
structure PaginatedResponse where
  data : JVal
  page : JVal
  first_page : JVal
  last_page : JVal
  prev_page_url : JVal
  next_page_url : JVal
  first_url : JVal
  next_url : JVal
deriving Repr

/-- `PaginatedResponse.__init__(pr)`: rejects a falsy envelope, then reads
the seven keys in source order; note that both `_next_page_url` and
`_next_url` are read from the same `next_page_url` key. -/
def PaginatedResponse.ofVal (pr : JVal) : Except PyErr PaginatedResponse :=
  if !pyTruthy pr then .error (.valueError "Response cannot be None")
  else match pyIndex pr "data" with
  | .error e => .error e
  | .ok d =>
    match pyIndex pr "current_page" with
    | .error e => .error e
    | .ok p =>
      match pyIndex pr "first_page" with
      | .error e => .error e
      | .ok fp =>
        match pyIndex pr "last_page" with
        | .error e => .error e
        | .ok lp =>
          match pyIndex pr "prev_page_url" with
          | .error e => .error e
          | .ok pu =>
            match pyIndex pr "next_page_url" with
            | .error e => .error e
            | .ok nu =>
              match pyIndex pr "first_page_url" with
              | .error e => .error e
              | .ok fu =>
                match pyIndex pr "next_page_url" with
                | .error e => .error e
                | .ok nu2 =>
                  .ok { data := d, page := p, first_page := fp,
                        last_page := lp, prev_page_url := pu,
                        next_page_url := nu, first_url := fu,
                        next_url := nu2 }

/-- The result of `ApiResponse.as_paginated_response`: a flat or a paginated
representation. -/
inductive ClassifyResult where
  | std (r : StdResponse)
  | paginated (r : PaginatedResponse)
deriving Repr

/-- `ApiResponse.as_paginated_response`, taken at the decoded-JSON level:
`response.get("current_page")` requires a dict (`AttributeError` otherwise,
in particular on JSON null); a falsy `current_page` routes to `StdResponse`,
a truthy one to `PaginatedResponse`. -/
def as_paginated_response (response : JVal) : Except PyErr ClassifyResult :=
  match response with
  | .obj fields =>
    if !pyTruthyOpt (dictGet fields "current_page") then
      (StdResponse.ofVal (.obj fields)).map .std
    else
      (PaginatedResponse.ofVal (.obj fields)).map .paginated
  | _ => .error .attributeError

/-- The transport collaborator's answer: `ApiResponse(response_code,
response_body)`, with the body taken at the decoded-JSON level (the
`json.loads` applied to a successful body is the identity in this
representation). -/
structure ApiResp where
  response_code : Int
  response_body : JVal
deriving Repr

/-- The transport collaborator: `api_get` keyed by the URL value the cursor
passes to it (URL construction and headers are out of scope). -/
def Transport : Type := JVal → ApiResp

/-- The observable outcome of one navigation method call: the returned or
raised result, the cursor state when the call ends (Python mutates the object
in place, so the state after a raise keeps any writes already performed), and
the URLs fetched through `api_get`, in order. -/
structure NavOutcome where
  result : Except PyErr Unit
  state : PaginatedResponse
  calls : List JVal
deriving Repr

/-- `PaginatedResponse._set_data_from_new_reponse(pr)`: the falsy-envelope
check, then eight field assignments in source order, each reading `pr[key]`.
Assignments are sequential: a `KeyError` part-way through leaves the fields
already assigned overwritten and the rest at their prior values, exactly as
the Python attribute writes do. -/
def setDataFromNewResponse (s : PaginatedResponse) (pr : JVal) :
    Except PyErr Unit × PaginatedResponse :=
  if !pyTruthy pr then (.error (.valueError "Response cannot be None"), s)
  else match pyIndex pr "data" with
  | .error e => (.error e, s)
  | .ok d =>
    let s := { s with data := d }
    match pyIndex pr "current_page" with
    | .error e => (.error e, s)
    | .ok p =>
      let s := { s with page := p }
      match pyIndex pr "first_page" with
      | .error e => (.error e, s)
      | .ok fp =>
        let s := { s with first_page := fp }
        match pyIndex pr "last_page" with
        | .error e => (.error e, s)
        | .ok lp =>
          let s := { s with last_page := lp }
          match pyIndex pr "prev_page_url" with
          | .error e => (.error e, s)
          | .ok pu =>
            let s := { s with prev_page_url := pu }
            match pyIndex pr "next_page_url" with
            | .error e => (.error e, s)
            | .ok nu =>
              let s := { s with next_page_url := nu }
              match pyIndex pr "first_page_url" with
              | .error e => (.error e, s)
              | .ok fu =>
                let s := { s with first_url := fu }
                match pyIndex pr "next_page_url" with
                | .error e => (.error e, s)
                | .ok nu2 => (.ok (), { s with next_url := nu2 })

/-- `PaginatedResponse.has_next_page`: `self._page < self._last_page`. -/
def has_next_page (s : PaginatedResponse) : Except PyErr Bool :=
  pyLt s.page s.last_page

/-- `PaginatedResponse.has_prev_page`: `self._page < self._first_page`,
the comparator exactly as written in the source. -/
def has_prev_page (s : PaginatedResponse) : Except PyErr Bool :=
  pyLt s.page s.first_page

/-- `PaginatedResponse.go_next_page`: guard `self._page >= self._last_page`
raises `IndexError` before any fetch; then `api_get(self._next_page_url)`,
a `ValueError` carrying the status and body when the code is not 200 (state
untouched), else the apply step on the decoded body. -/
def go_next_page (t : Transport) (s : PaginatedResponse) : NavOutcome :=
  match pyGe s.page s.last_page with
  | .error e => ⟨.error e, s, []⟩
  | .ok true => ⟨.error (.indexError "No next page available"), s, []⟩
  | .ok false =>
    let r := t s.next_page_url
    if r.response_code != 200 then
      ⟨.error (.valueErrorNav "next page" r.response_code r.response_body),
       s, [s.next_page_url]⟩
    else
      let pr := setDataFromNewResponse s r.response_body
      ⟨pr.1, pr.2, [s.next_page_url]⟩

/-- `PaginatedResponse.go_prev_page`: guard `self._page <= self._first_page`
raises `IndexError` before any fetch; then `api_get(self._prev_page_url)`
and the same validate-then-apply shape as `go_next_page`. -/
def go_prev_page (t : Transport) (s : PaginatedResponse) : NavOutcome :=
  match pyLe s.page s.first_page with
  | .error e => ⟨.error e, s, []⟩
  | .ok true => ⟨.error (.indexError "No previous page available"), s, []⟩
  | .ok false =>
    let r := t s.prev_page_url
    if r.response_code != 200 then
      ⟨.error (.valueErrorNav "previous page" r.response_code r.response_body),
       s, [s.prev_page_url]⟩
    else
      let pr := setDataFromNewResponse s r.response_body
      ⟨pr.1, pr.2, [s.prev_page_url]⟩

/-- `PaginatedResponse.go_first_page`: no guard; `api_get(self._first_url)`
then validate and apply. -/
def go_first_page (t : Transport) (s : PaginatedResponse) : NavOutcome :=
  let r := t s.first_url
  if r.response_code != 200 then
    ⟨.error (.valueErrorNav "first page" r.response_code r.response_body),
     s, [s.first_url]⟩
  else
    let pr := setDataFromNewResponse s r.response_body
    ⟨pr.1, pr.2, [s.first_url]⟩

/-- `PaginatedResponse.go_last_page`: no guard; the fetch goes to
`self._next_url` (the field populated from the envelope's `next_page_url`
key), then validate and apply. -/
def go_last_page (t : Transport) (s : PaginatedResponse) : NavOutcome :=
  let r := t s.next_url
  if r.response_code != 200 then
    ⟨.error (.valueErrorNav "last page" r.response_code r.response_body),
     s, [s.next_url]⟩
  else
    let pr := setDataFromNewResponse s r.response_body
    ⟨pr.1, pr.2, [s.next_url]⟩


/-
Fixtures: concrete cursors, envelopes and transports used by the claim
theorems and their witnesses.
-/

/-- A mid-collection cursor: page 2 of a three-page collection, a state with
a previous page available. -/
def exMidCursor : PaginatedResponse :=
  { data := .arr [.num 10], page := .num 2, first_page := .num 1,
    last_page := .num 3, prev_page_url := .str "p1", next_page_url := .str "p3",
    first_url := .str "p1", next_url := .str "p3" }

/-- A cursor already on its last page. -/
def exLastCursor : PaginatedResponse :=
  { data := .arr [], page := .num 3, first_page := .num 1,
    last_page := .num 3, prev_page_url := .str "p2", next_page_url := .null,
    first_url := .str "p1", next_url := .null }

/-- A cursor on its first page (`page = first_page = 1`). -/
def exFirstCursor : PaginatedResponse :=
  { data := .arr [.num 7], page := .num 1, first_page := .num 1,
    last_page := .num 3, prev_page_url := .null, next_page_url := .str "p2",
    first_url := .str "p1", next_url := .str "p2" }

/-- Modelled from the spec: the previous-page predicate as the specification
states it, true when `page > first_page`, for comparison with the source's
`has_prev_page`. -/
def specHasPrev (s : PaginatedResponse) : Except PyErr Bool :=
  pyLt s.first_page s.page

/-- A cursor about to apply a replacement envelope, with recognisable prior
field values. -/
def c4PriorState : PaginatedResponse :=
  { data := .str "old-data", page := .num 1, first_page := .num 1,
    last_page := .num 4, prev_page_url := .null, next_page_url := .str "u2",
    first_url := .str "u1", next_url := .str "u2" }

/-- A replacement envelope that has `data` and `current_page` but is missing
`first_page` and every later required key. -/
def c4MissingKeyEnv : JVal :=
  .obj [("data", .str "new-data"), ("current_page", .num 2)]

/-- A failing transport: every fetch answers status 500. -/
def failT : Transport := fun _ => ⟨500, .str "server error"⟩

/-- Whether a cursor state satisfies the bounds invariant
`first_page <= page <= last_page` on integer page fields. -/
def boundsOkState (s : PaginatedResponse) : Bool :=
  match s.page, s.first_page, s.last_page with
  | .num p, .num f, .num l => decide (f ≤ p) && decide (p ≤ l)
  | _, _, _ => false

/-- Whether an envelope carries integer `current_page`, `first_page` and
`last_page` satisfying `first_page <= current_page <= last_page`. -/
def boundsOkEnv (v : JVal) : Bool :=
  match v with
  | .obj fields =>
    match dictGet fields "current_page", dictGet fields "first_page",
          dictGet fields "last_page" with
    | some (.num p), some (.num f), some (.num l) =>
      decide (f ≤ p) && decide (p ≤ l)
    | _, _, _ => false
  | _ => false

/-- A paginated envelope whose position fields violate the bounds invariant:
current page 5 of a collection whose last page is 2. -/
def c3BadEnv : JVal :=
  .obj [("data", .arr []), ("current_page", .num 5), ("first_page", .num 1),
        ("last_page", .num 2), ("prev_page_url", .null),
        ("next_page_url", .null), ("first_page_url", .null)]

/-- The cursor the source builds from `c3BadEnv` without any bounds check. -/
def c3BadState : PaginatedResponse :=
  { data := .arr [], page := .num 5, first_page := .num 1, last_page := .num 2,
    prev_page_url := .null, next_page_url := .null, first_url := .null,
    next_url := .null }

/-- A well-formed paginated envelope used as a fixture. -/
def c2PagFields : List (String × JVal) :=
  [("data", .arr [.num 1]), ("current_page", .num 2), ("first_page", .num 1),
   ("last_page", .num 5), ("prev_page_url", .str "u1"),
   ("next_page_url", .str "u3"), ("first_page_url", .str "u1")]

/-- A flat envelope used as a fixture: only a `data` key. -/
def c2FlatFields : List (String × JVal) :=
  [("data", .arr [.num 1, .num 2, .num 3])]

/-- A transport that always serves the `c2PagFields` envelope with status
200; used to witness invariant preservation. -/
def okT : Transport := fun _ => ⟨200, .obj c2PagFields⟩

/-- The envelope a metadata-consistent server returns for page `p` of a
collection ranging over pages `first..last`, with per-page payloads `dataOf`,
a URL scheme `url` indexed by page number, and a fixed first-page URL. -/
def pageEnvFields (dataOf url : Int → JVal) (firstUrl : JVal)
    (first last p : Int) : List (String × JVal) :=
  [("data", dataOf p), ("current_page", .num p), ("first_page", .num first),
   ("last_page", .num last), ("prev_page_url", url (p - 1)),
   ("next_page_url", url (p + 1)), ("first_page_url", firstUrl)]

/-- The cursor state holding exactly the fields of the page-`p` envelope of
the consistent server. -/
def pageState (dataOf url : Int → JVal) (firstUrl : JVal)
    (first last p : Int) : PaginatedResponse :=
  { data := dataOf p, page := .num p, first_page := .num first,
    last_page := .num last, prev_page_url := url (p - 1),
    next_page_url := url (p + 1), first_url := firstUrl,
    next_url := url (p + 1) }

/-- A concrete metadata-consistent three-page server whose URL for page `p`
is the JSON number `p` itself. -/
def c9T : Transport := fun u =>
  match u with
  | .num p =>
    ⟨200, .obj (pageEnvFields (fun _ => .null) (fun q => .num q)
      (.str "f") 1 3 p)⟩
  | _ => ⟨404, .null⟩

/-
Helper lemmas.
-/

/-- A successful `pr[k]` lookup on a dict means the key maps to that value. -/
theorem dictGet_of_pyIndex {fields : List (String × JVal)} {k : String}
    {v : JVal} (h : pyIndex (.obj fields) k = .ok v) :
    dictGet fields k = some v := by
  simp only [pyIndex] at h
  split at h
  · next w hw =>
    injection h with h
    rw [← h]
    exact hw
  · exact Except.noConfusion h

/-- Field provenance of a successfully constructed cursor: every field holds
the value of the corresponding envelope key, with `next_url` read from the
`next_page_url` key. -/
theorem ofVal_fields (v : JVal) (s : PaginatedResponse)
    (h : PaginatedResponse.ofVal v = .ok s) :
    pyIndex v "data" = .ok s.data ∧
    pyIndex v "current_page" = .ok s.page ∧
    pyIndex v "first_page" = .ok s.first_page ∧
    pyIndex v "last_page" = .ok s.last_page ∧
    pyIndex v "prev_page_url" = .ok s.prev_page_url ∧
    pyIndex v "next_page_url" = .ok s.next_page_url ∧
    pyIndex v "first_page_url" = .ok s.first_url ∧
    pyIndex v "next_page_url" = .ok s.next_url := by
  unfold PaginatedResponse.ofVal at h
  split at h
  · exact Except.noConfusion h
  · split at h
    · exact Except.noConfusion h
    · next d hd =>
      split at h
      · exact Except.noConfusion h
      · next p hp =>
        split at h
        · exact Except.noConfusion h
        · next fp hfp =>
          split at h
          · exact Except.noConfusion h
          · next lp hlp =>
            split at h
            · exact Except.noConfusion h
            · next pu hpu =>
              split at h
              · exact Except.noConfusion h
              · next nu hnu =>
                split at h
                · exact Except.noConfusion h
                · next fu hfu =>
                  split at h
                  · exact Except.noConfusion h
                  · next nu2 hnu2 =>
                    injection h with h
                    subst h
                    exact ⟨hd, hp, hfp, hlp, hpu, hnu, hfu, hnu.trans hnu2⟩

/-- Field provenance of a fully applied replacement envelope: when the apply
step returns without raising, every cursor field holds the value of the
corresponding envelope key. -/
theorem setData_ok_fields (s s2 : PaginatedResponse) (pr : JVal)
    (h : setDataFromNewResponse s pr = (.ok (), s2)) :
    pyIndex pr "data" = .ok s2.data ∧
    pyIndex pr "current_page" = .ok s2.page ∧
    pyIndex pr "first_page" = .ok s2.first_page ∧
    pyIndex pr "last_page" = .ok s2.last_page ∧
    pyIndex pr "prev_page_url" = .ok s2.prev_page_url ∧
    pyIndex pr "next_page_url" = .ok s2.next_page_url ∧
    pyIndex pr "first_page_url" = .ok s2.first_url ∧
    pyIndex pr "next_page_url" = .ok s2.next_url := by
  unfold setDataFromNewResponse at h
  split at h
  · simp at h
  · split at h
    · simp at h
    · next d hd =>
      split at h
      · simp at h
      · next p hp =>
        split at h
        · simp at h
        · next fp hfp =>
          split at h
          · simp at h
          · next lp hlp =>
            split at h
            · simp at h
            · next pu hpu =>
              split at h
              · simp at h
              · next nu hnu =>
                split at h
                · simp at h
                · next fu hfu =>
                  split at h
                  · simp at h
                  · next nu2 hnu2 =>
                    injection h with h1 h2
                    subst h2
                    exact ⟨hd, hp, hfp, hlp, hpu, hnu, hfu, hnu.trans hnu2⟩

/-- Bounds transfer: a cursor whose position fields were read from a
bounds-consistent envelope satisfies the bounds invariant. -/
theorem boundsOkEnv_state (v : JVal) (s : PaginatedResponse)
    (hb : boundsOkEnv v = true)
    (hp : pyIndex v "current_page" = .ok s.page)
    (hf : pyIndex v "first_page" = .ok s.first_page)
    (hl : pyIndex v "last_page" = .ok s.last_page) :
    boundsOkState s = true := by
  unfold boundsOkEnv at hb
  split at hb
  · next fields =>
    split at hb
    · next p f l hcp hfp hlp =>
      have hp2 := dictGet_of_pyIndex hp
      have hf2 := dictGet_of_pyIndex hf
      have hl2 := dictGet_of_pyIndex hl
      rw [hcp] at hp2
      rw [hfp] at hf2
      rw [hlp] at hl2
      injection hp2 with hp2
      injection hf2 with hf2
      injection hl2 with hl2
      unfold boundsOkState
      rw [← hp2, ← hf2, ← hl2]
      exact hb
    · exact absurd hb (by simp)
  · exact absurd hb (by simp)

/-- Combined form: a fully applied bounds-consistent envelope leaves the
cursor satisfying the bounds invariant. -/
theorem setData_bounds (s s2 : PaginatedResponse) (v : JVal)
    (hb : boundsOkEnv v = true)
    (h : setDataFromNewResponse s v = (.ok (), s2)) :
    boundsOkState s2 = true := by
  obtain ⟨_, hp, hf, hl, _, _, _, _⟩ := setData_ok_fields s s2 v h
  exact boundsOkEnv_state v s2 hb hp hf hl

/-- Applying the page-`p` envelope of a metadata-consistent server replaces
the whole cursor with the page-`p` state. -/
theorem setData_pageEnv (s : PaginatedResponse) (dataOf url : Int → JVal)
    (firstUrl : JVal) (first last p : Int) :
    setDataFromNewResponse s (.obj (pageEnvFields dataOf url firstUrl first last p)) =
      (.ok (), pageState dataOf url firstUrl first last p) := rfl

/-
Claim theorems.
-/

/-- C1: the spec says the previous-page predicate is the comparison
`page > first_page`; the source's `has_prev_page` computes
`page < first_page`.  On the mid-collection cursor (page 2, first_page 1) a
previous page exists and the spec predicate holds, but the source returns
false: the source comparator is inverted. -/
theorem c1_has_prev_page_inverted :
    has_prev_page exMidCursor = .ok false ∧
    specHasPrev exMidCursor = .ok true := by
  exact ⟨rfl, rfl⟩

/-- C4: applying a replacement envelope that is missing `first_page` raises
`KeyError("first_page")` but has already overwritten `data` and `page`,
while `last_page` (and the remaining fields) keep their prior values — a
partial update, contradicting the claim that an envelope missing a required
key leaves every cursor field unchanged. -/
theorem c4_partial_update :
    (setDataFromNewResponse c4PriorState c4MissingKeyEnv).1 =
      .error (.keyError "first_page") ∧
    (setDataFromNewResponse c4PriorState c4MissingKeyEnv).2.page = .num 2 ∧
    c4PriorState.page = .num 1 ∧
    JVal.num 2 ≠ JVal.num 1 ∧
    (setDataFromNewResponse c4PriorState c4MissingKeyEnv).2.last_page =
      c4PriorState.last_page := by
  refine ⟨rfl, rfl, rfl, by simp, rfl⟩

/-- C5: when the guard passes and the transport answers `go_next_page` with
a non-200 status, the call raises the `ValueError` carrying that status and
body, the state is exactly the pre-call state, and only that one fetch was
made. -/
theorem c5_transport_failure_keeps_state (t : Transport)
    (s : PaginatedResponse) (p l : Int)
    (hp : s.page = .num p) (hl : s.last_page = .num l) (hpl : p < l)
    (hcode : (t s.next_page_url).response_code ≠ 200) :
    go_next_page t s =
      ⟨.error (.valueErrorNav "next page" (t s.next_page_url).response_code
         (t s.next_page_url).response_body), s, [s.next_page_url]⟩ := by
  have hg : pyGe s.page s.last_page = Except.ok false := by
    rw [hp, hl]
    simp only [pyGe, pyNum?]
    congr 1
    simp only [decide_eq_false_iff_not]
    omega
  unfold go_next_page
  rw [hg]
  simp [hcode]

/-- Witness for C5 at the mid-collection cursor and the failing transport. -/
theorem c5_transport_failure_keeps_state_witness :
    go_next_page failT exMidCursor =
      ⟨.error (.valueErrorNav "next page"
         (failT exMidCursor.next_page_url).response_code
         (failT exMidCursor.next_page_url).response_body),
       exMidCursor, [exMidCursor.next_page_url]⟩ :=
  c5_transport_failure_keeps_state failT exMidCursor 2 3 rfl rfl
    (by decide) (by decide)

/-- C6: with `page >= last_page` the `go_next_page` guard raises
`IndexError` at once: the outcome carries the unchanged state and an empty
fetch list, so zero transport calls were made. -/
theorem c6_next_guard_no_fetch (t : Transport) (s : PaginatedResponse)
    (p l : Int) (hp : s.page = .num p) (hl : s.last_page = .num l)
    (hpl : l ≤ p) :
    go_next_page t s = ⟨.error (.indexError "No next page available"), s, []⟩ := by
  have hg : pyGe s.page s.last_page = Except.ok true := by
    rw [hp, hl]
    simp only [pyGe, pyNum?]
    congr 1
    simp only [decide_eq_true_eq]
    omega
  unfold go_next_page
  rw [hg]

/-- Witness for C6 at the last-page cursor and the failing transport. -/
theorem c6_next_guard_no_fetch_witness :
    go_next_page failT exLastCursor =
      ⟨.error (.indexError "No next page available"), exLastCursor, []⟩ :=
  c6_next_guard_no_fetch failT exLastCursor 3 3 rfl rfl (by decide)

/-- C7, counterexample: classifying JSON null does fail, but with the
attribute error from calling `.get` on None, not with the empty-response
`ValueError("Response cannot be None")` the claim names for both inputs. -/
theorem c7_null_not_empty_error :
    as_paginated_response JVal.null = .error .attributeError ∧
    PyErr.attributeError ≠ PyErr.valueError "Response cannot be None" := by
  exact ⟨rfl, by simp⟩

/-- C7, amended: classifying the empty envelope raises the empty-response
`ValueError`, and classifying JSON null fails with an `AttributeError`;
neither input produces a result. -/
theorem c7_empty_and_null_rejected :
    as_paginated_response (JVal.obj []) =
      .error (.valueError "Response cannot be None") ∧
    as_paginated_response JVal.null = .error .attributeError := by
  exact ⟨rfl, rfl⟩

/-- C2, counterexample: the empty envelope has no (hence falsy)
`current_page`, yet classification does not return a flat result wrapping
its `data` field — the `StdResponse` constructor rejects the falsy envelope
with the empty-response `ValueError`. -/
theorem c2_flat_fails_on_empty :
    as_paginated_response (.obj []) =
      .error (.valueError "Response cannot be None") := rfl

/-- C2, amended: for every envelope carrying a truthy `current_page` and all
seven pagination keys, classification returns the paginated result whose
`page` equals `current_page`; for every envelope with falsy or absent
`current_page` that does carry a `data` key, classification returns the flat
result wrapping that `data` value. -/
theorem c2_classify_correct (fields : List (String × JVal))
    (cp d fp lp pu nu fu : JVal) :
    (dictGet fields "current_page" = some cp → pyTruthy cp = true →
     dictGet fields "data" = some d →
     dictGet fields "first_page" = some fp →
     dictGet fields "last_page" = some lp →
     dictGet fields "prev_page_url" = some pu →
     dictGet fields "next_page_url" = some nu →
     dictGet fields "first_page_url" = some fu →
     as_paginated_response (.obj fields) =
       .ok (.paginated
         { data := d, page := cp, first_page := fp, last_page := lp,
           prev_page_url := pu, next_page_url := nu,
           first_url := fu, next_url := nu })) ∧
    (pyTruthyOpt (dictGet fields "current_page") = false →
     dictGet fields "data" = some d →
     as_paginated_response (.obj fields) = .ok (.std { data := d })) := by
  have hne : ∀ (k : String) (w : JVal), dictGet fields k = some w →
      pyTruthy (JVal.obj fields) = true := by
    intro k w hw
    cases fields with
    | nil => simp [dictGet] at hw
    | cons a as => rfl
  constructor
  · intro hcp hcpt hd hfp hlp hpu hnu hfu
    have htr := hne _ _ hcp
    have i1 : pyIndex (JVal.obj fields) "data" = .ok d := by
      simp [pyIndex, hd]
    have i2 : pyIndex (JVal.obj fields) "current_page" = .ok cp := by
      simp [pyIndex, hcp]
    have i3 : pyIndex (JVal.obj fields) "first_page" = .ok fp := by
      simp [pyIndex, hfp]
    have i4 : pyIndex (JVal.obj fields) "last_page" = .ok lp := by
      simp [pyIndex, hlp]
    have i5 : pyIndex (JVal.obj fields) "prev_page_url" = .ok pu := by
      simp [pyIndex, hpu]
    have i6 : pyIndex (JVal.obj fields) "next_page_url" = .ok nu := by
      simp [pyIndex, hnu]
    have i7 : pyIndex (JVal.obj fields) "first_page_url" = .ok fu := by
      simp [pyIndex, hfu]
    have hpag : PaginatedResponse.ofVal (JVal.obj fields) =
        .ok { data := d, page := cp, first_page := fp, last_page := lp,
              prev_page_url := pu, next_page_url := nu, first_url := fu,
              next_url := nu } := by
      unfold PaginatedResponse.ofVal
      simp [htr, i1, i2, i3, i4, i5, i6, i7]
    unfold as_paginated_response
    simp [pyTruthyOpt, hcp, hcpt, hpag, Except.map]
  · intro hftr hd
    have htr := hne _ _ hd
    have i1 : pyIndex (JVal.obj fields) "data" = .ok d := by
      simp [pyIndex, hd]
    have hstd : StdResponse.ofVal (JVal.obj fields) = .ok { data := d } := by
      unfold StdResponse.ofVal
      simp [htr, i1]
    unfold as_paginated_response
    simp [hftr, hstd, Except.map]

/-- Witness for C2 on a concrete well-formed paginated envelope and a
concrete flat envelope. -/
theorem c2_classify_correct_witness :
    as_paginated_response (.obj c2PagFields) =
      .ok (.paginated
        { data := .arr [.num 1], page := .num 2, first_page := .num 1,
          last_page := .num 5, prev_page_url := .str "u1",
          next_page_url := .str "u3", first_url := .str "u1",
          next_url := .str "u3" }) ∧
    as_paginated_response (.obj c2FlatFields) =
      .ok (.std { data := .arr [.num 1, .num 2, .num 3] }) := by
  constructor
  · exact (c2_classify_correct c2PagFields (.num 2) (.arr [.num 1]) (.num 1)
      (.num 5) (.str "u1") (.str "u3") (.str "u1")).1
      rfl rfl rfl rfl rfl rfl rfl rfl
  · exact (c2_classify_correct c2FlatFields .null
      (.arr [.num 1, .num 2, .num 3]) .null .null .null .null .null).2 rfl rfl

/-- C3, counterexample: the source constructs a cursor from an envelope
whose current page 5 exceeds its last page 2, with no bounds check — a
reachable state violating `first_page <= page <= last_page`. -/
theorem c3_constructed_out_of_bounds :
    PaginatedResponse.ofVal c3BadEnv = .ok c3BadState ∧
    boundsOkState c3BadState = false := by
  exact ⟨rfl, rfl⟩

/-- C3, amended: provided the constructing envelope and every envelope the
transport serves satisfy `first_page <= current_page <= last_page`, the
bounds invariant holds after construction and after every successful
navigation call (the cursor state after success is read wholly from the
fetched envelope). -/
theorem c3_bounds_invariant (t : Transport) (v : JVal)
    (s : PaginatedResponse)
    (ht : ∀ u, boundsOkEnv (t u).response_body = true) :
    (∀ s0, boundsOkEnv v = true → PaginatedResponse.ofVal v = .ok s0 →
       boundsOkState s0 = true) ∧
    (∀ s2 cs, go_next_page t s = ⟨.ok (), s2, cs⟩ →
       boundsOkState s2 = true) ∧
    (∀ s2 cs, go_prev_page t s = ⟨.ok (), s2, cs⟩ →
       boundsOkState s2 = true) ∧
    (∀ s2 cs, go_first_page t s = ⟨.ok (), s2, cs⟩ →
       boundsOkState s2 = true) ∧
    (∀ s2 cs, go_last_page t s = ⟨.ok (), s2, cs⟩ →
       boundsOkState s2 = true) := by
  refine ⟨?_, ?_, ?_, ?_, ?_⟩
  · intro s0 hb hok
    obtain ⟨_, hp, hf, hl, _, _, _, _⟩ := ofVal_fields v s0 hok
    exact boundsOkEnv_state v s0 hb hp hf hl
  · intro s2 cs hout
    unfold go_next_page at hout
    split at hout
    · injection hout with h1 h2 h3
      exact Except.noConfusion h1
    · injection hout with h1 h2 h3
      exact Except.noConfusion h1
    · dsimp only at hout
      split at hout
      · injection hout with h1 h2 h3
        exact Except.noConfusion h1
      · injection hout with h1 h2 h3
        have happ : setDataFromNewResponse s
            (t s.next_page_url).response_body = (.ok (), s2) := by
          rw [← h1, ← h2]
        exact setData_bounds s s2 _ (ht s.next_page_url) happ
  · intro s2 cs hout
    unfold go_prev_page at hout
    split at hout
    · injection hout with h1 h2 h3
      exact Except.noConfusion h1
    · injection hout with h1 h2 h3
      exact Except.noConfusion h1
    · dsimp only at hout
      split at hout
      · injection hout with h1 h2 h3
        exact Except.noConfusion h1
      · injection hout with h1 h2 h3
        have happ : setDataFromNewResponse s
            (t s.prev_page_url).response_body = (.ok (), s2) := by
          rw [← h1, ← h2]
        exact setData_bounds s s2 _ (ht s.prev_page_url) happ
  · intro s2 cs hout
    simp only [go_first_page] at hout
    split at hout
    · injection hout with h1 h2 h3
      exact Except.noConfusion h1
    · injection hout with h1 h2 h3
      have happ : setDataFromNewResponse s
          (t s.first_url).response_body = (.ok (), s2) := by
        rw [← h1, ← h2]
      exact setData_bounds s s2 _ (ht s.first_url) happ
  · intro s2 cs hout
    simp only [go_last_page] at hout
    split at hout
    · injection hout with h1 h2 h3
      exact Except.noConfusion h1
    · injection hout with h1 h2 h3
      have happ : setDataFromNewResponse s
          (t s.next_url).response_body = (.ok (), s2) := by
        rw [← h1, ← h2]
      exact setData_bounds s s2 _ (ht s.next_url) happ

/-- Witness for C3: constructing from the concrete well-formed envelope
(page 2 of 1..5) under a transport that always serves that envelope yields
a state satisfying the bounds invariant. -/
theorem c3_bounds_invariant_witness :
    boundsOkState
      { data := .arr [.num 1], page := .num 2, first_page := .num 1,
        last_page := .num 5, prev_page_url := .str "u1",
        next_page_url := .str "u3", first_url := .str "u1",
        next_url := .str "u3" } = true :=
  (c3_bounds_invariant okT (.obj c2PagFields) exMidCursor
    (fun _ => rfl)).1 _ rfl rfl

/-- C8: `go_last_page` always issues its single GET to the cursor's
`next_url` field, and for any cursor built by the constructor that field was
populated from the envelope's `next_page_url` key — the "next page" URL
doubles as the "last page" navigation target. -/
theorem c8_go_last_fetches_next_page_url (t : Transport)
    (fields : List (String × JVal)) (s : PaginatedResponse)
    (h : PaginatedResponse.ofVal (.obj fields) = .ok s) :
    (go_last_page t s).calls = [s.next_url] ∧
    dictGet fields "next_page_url" = some s.next_url := by
  constructor
  · unfold go_last_page
    dsimp only
    split
    · rfl
    · rfl
  · obtain ⟨_, _, _, _, _, _, _, h8⟩ := ofVal_fields _ _ h
    exact dictGet_of_pyIndex h8

/-- Witness for C8 on the concrete well-formed envelope: the last-page fetch
goes to the value of its `next_page_url` key. -/
theorem c8_go_last_fetches_next_page_url_witness :
    (go_last_page okT
      { data := .arr [.num 1], page := .num 2, first_page := .num 1,
        last_page := .num 5, prev_page_url := .str "u1",
        next_page_url := .str "u3", first_url := .str "u1",
        next_url := .str "u3" }).calls = [JVal.str "u3"] ∧
    dictGet c2PagFields "next_page_url" = some (.str "u3") :=
  c8_go_last_fetches_next_page_url okT c2PagFields _ rfl

/-- C9: against a metadata-consistent server (the envelope served for page
`p` carries position `p`, the collection bounds, and prev/next URLs of pages
`p-1` and `p+1`), a successful `go_next_page` from page N followed by a
successful `go_prev_page` returns the cursor to exactly the page-N state:
`page = N` and every cursor field equals its original value. -/
theorem c9_next_prev_round_trip (t : Transport) (dataOf url : Int → JVal)
    (firstUrl : JVal) (first last N : Int)
    (h1 : first ≤ N) (h2 : N < last)
    (ht : ∀ p, first ≤ p → p ≤ last →
      t (url p) = ⟨200, .obj (pageEnvFields dataOf url firstUrl first last p)⟩) :
    go_next_page t (pageState dataOf url firstUrl first last N) =
      ⟨.ok (), pageState dataOf url firstUrl first last (N + 1),
       [url (N + 1)]⟩ ∧
    go_prev_page t (pageState dataOf url firstUrl first last (N + 1)) =
      ⟨.ok (), pageState dataOf url firstUrl first last N, [url N]⟩ ∧
    (pageState dataOf url firstUrl first last N).page = .num N := by
  have hga : pyGe (JVal.num N) (JVal.num last) = Except.ok false := by
    simp only [pyGe, pyNum?]
    congr 1
    simp only [decide_eq_false_iff_not]
    omega
  have hgb : pyLe (JVal.num (N + 1)) (JVal.num first) = Except.ok false := by
    simp only [pyLe, pyNum?]
    congr 1
    simp only [decide_eq_false_iff_not]
    omega
  refine ⟨?_, ?_, rfl⟩
  · unfold go_next_page
    have hs : (pageState dataOf url firstUrl first last N).page = .num N := rfl
    rw [hs, show (pageState dataOf url firstUrl first last N).last_page =
      .num last from rfl, hga,
      show (pageState dataOf url firstUrl first last N).next_page_url =
      url (N + 1) from rfl, ht (N + 1) (by omega) (by omega)]
    simp [setData_pageEnv]
  · unfold go_prev_page
    rw [show (pageState dataOf url firstUrl first last (N + 1)).page =
      .num (N + 1) from rfl,
      show (pageState dataOf url firstUrl first last (N + 1)).first_page =
      .num first from rfl, hgb,
      show (pageState dataOf url firstUrl first last (N + 1)).prev_page_url =
      url (N + 1 - 1) from rfl,
      show N + 1 - 1 = N from by omega, ht N h1 (by omega)]
    simp [setData_pageEnv]

/-- Witness for C9 on a concrete three-page server: from page 1, going next
and then back returns the page-1 cursor state. -/
theorem c9_next_prev_round_trip_witness :
    go_next_page c9T
      (pageState (fun _ => .null) (fun q => .num q) (.str "f") 1 3 1) =
      ⟨.ok (), pageState (fun _ => .null) (fun q => .num q) (.str "f") 1 3 2,
       [.num 2]⟩ ∧
    go_prev_page c9T
      (pageState (fun _ => .null) (fun q => .num q) (.str "f") 1 3 2) =
      ⟨.ok (), pageState (fun _ => .null) (fun q => .num q) (.str "f") 1 3 1,
       [.num 1]⟩ ∧
    (pageState (fun _ => .null) (fun q => .num q) (.str "f") 1 3 1).page =
      .num 1 :=
  c9_next_prev_round_trip c9T (fun _ => .null) (fun q => .num q) (.str "f")
    1 3 1 (by decide) (by decide) (fun p h1 h2 => rfl)

/-- C10: the previous-page navigation guard is the opposite comparator to
`has_prev_page`.  With integer position fields, `go_prev_page` raises
`IndexError` with no fetch and no state change exactly when
`page <= first_page`, issues its fetch exactly when `page > first_page`,
and in every state where `has_prev_page` answers true the navigation
nevertheless raises. -/
theorem c10_prev_guard_opposes_has_prev (t : Transport)
    (s : PaginatedResponse) (p f : Int)
    (hp : s.page = .num p) (hf : s.first_page = .num f) :
    (p ≤ f → go_prev_page t s =
       ⟨.error (.indexError "No previous page available"), s, []⟩) ∧
    (f < p → (go_prev_page t s).calls = [s.prev_page_url]) ∧
    (has_prev_page s = .ok true →
       (go_prev_page t s).result =
         .error (.indexError "No previous page available")) := by
  have hguard : pyLe s.page s.first_page = Except.ok (decide (p ≤ f)) := by
    rw [hp, hf]
    simp only [pyLe, pyNum?]
  have hstop : p ≤ f → go_prev_page t s =
      ⟨.error (.indexError "No previous page available"), s, []⟩ := by
    intro hle
    unfold go_prev_page
    rw [hguard, decide_eq_true hle]
  refine ⟨hstop, ?_, ?_⟩
  · intro hgt
    unfold go_prev_page
    rw [hguard, decide_eq_false (by omega)]
    dsimp only
    split
    · rfl
    · rfl
  · intro htrue
    unfold has_prev_page at htrue
    rw [hp, hf] at htrue
    simp only [pyLt, pyNum?, Except.ok.injEq] at htrue
    have hlt : p < f := of_decide_eq_true htrue
    rw [hstop (by omega)]

/-- Witness for C10 at the first-page cursor (`page = first_page = 1`):
navigation backwards raises with no fetch and no state change. -/
theorem c10_prev_guard_opposes_has_prev_witness :
    go_prev_page failT exFirstCursor =
      ⟨.error (.indexError "No previous page available"), exFirstCursor, []⟩ :=
  (c10_prev_guard_opposes_has_prev failT exFirstCursor 1 1 rfl rfl).1
    (by decide)
